import Mathlib

/-!
Shallow embedding of the landomo-canada-realtor scraping CORE.

The Redis-backed queue store (src/src/redis-queue.ts) is modelled as an
explicit state record; each async method becomes a pure function from the
state (plus any ambient inputs such as the current wall-clock time, which
the TypeScript obtains from Date.now()) to the new state and the returned
value.  Sets are modelled as duplicate-free lists maintained by a SADD
analogue, hash maps as functions with pointwise update, and Redis lists
(LPUSH/BRPOP lanes) as Lean lists with the head at the LPUSH end.

Remote I/O performed by the worker processes (src/src/worker-verifier.ts,
the inspection worker) is modelled by passing the fetch outcome in as data;
downstream Sink calls are returned as a list of emitted records.
-/

namespace Landomo

/-- Redis SADD on a set modelled as a duplicate-free list: add the element
only when it is not yet a member (SADD returns 1 exactly in that case). -/
def saddL (s : List String) (id : String) : List String :=
  if id ∈ s then s else id :: s

/-- Redis SREM: remove the element from the set. -/
def sremL (s : List String) (id : String) : List String :=
  s.filter (fun x => x ≠ id)

/-- Snapshot hash stored per identifier by storePropertySnapshot
(redis-queue.ts lines 442-457): checksum, price, status, updated_at. -/
structure Snapshot where
  checksum : String
  price : Nat
  status : String
  updatedAt : Nat
deriving DecidableEq, Repr

/-- State of one RedisQueue namespace: the main lane, the discovery set
(all_ids), the processed/failed/verified_inactive sets, the missing lane,
and the per-identifier hashes (retries, last_seen, snapshots, failure
reasons). -/
structure QueueState where
  queue : List String
  allIds : List String
  processedIds : List String
  failedIds : List String
  verifiedInactive : List String
  missingQueue : List String
  retries : String → Nat
  lastSeen : String → Option Nat
  snapshots : String → Option Snapshot
  failedErrors : String → Option String

/-- Empty queue state: all lanes and sets empty, all hashes unset
(HINCRBY on a missing field starts from 0). -/
def initState : QueueState :=
  ⟨[], [], [], [], [], [], fun _ => 0, fun _ => none, fun _ => none, fun _ => none⟩

/-- pushListingId (redis-queue.ts lines 87-101): if the id is already in
the all_ids set return false; otherwise LPUSH it onto the main lane, SADD
it into all_ids, and return true.  The method never touches last_seen. -/
def pushListingId (st : QueueState) (id : String) : Bool × QueueState :=
  if id ∈ st.allIds then (false, st)
  else (true, { st with queue := id :: st.queue, allIds := saddL st.allIds id })

/-- isProcessed (lines 152-154): SISMEMBER on the processed set. -/
def isProcessed (st : QueueState) (id : String) : Bool :=
  id ∈ st.processedIds

/-- markProcessed (lines 159-161): SADD into the processed set. -/
def markProcessed (st : QueueState) (id : String) : QueueState :=
  { st with processedIds := saddL st.processedIds id }

/-- markFailed (lines 166-171): SADD into the failed set and, when an
error string is given, HSET it into the per-id error hash. -/
def markFailed (st : QueueState) (id : String) (err : Option String) : QueueState :=
  let st1 := { st with failedIds := saddL st.failedIds id }
  match err with
  | some e => { st1 with failedErrors := fun s => if s = id then some e else st1.failedErrors s }
  | none => st1

/-- incrementRetry (lines 176-178): HINCRBY by 1, returning the new count. -/
def incrementRetry (st : QueueState) (id : String) : Nat × QueueState :=
  let n := st.retries id + 1
  (n, { st with retries := fun s => if s = id then n else st.retries s })

/-- requeueWithRetry (lines 191-201): increment the retry counter; while
the new count is at most maxRetries, LPUSH the id back onto the main lane
and return true; otherwise mark it failed with a max-retries reason and
return false. -/
def requeueWithRetry (st : QueueState) (id : String) (maxRetries : Nat) : Bool × QueueState :=
  let r := incrementRetry st id
  if r.1 ≤ maxRetries then (true, { r.2 with queue := id :: r.2.queue })
  else (false, markFailed r.2 id (some ("Max retries (" ++ toString maxRetries ++ ") exceeded")))

/-- updateLastSeen (lines 306-309): SET the per-id last_seen key to the
current Date.now() timestamp (passed in as now). -/
def updateLastSeen (st : QueueState) (id : String) (now : Nat) : QueueState :=
  { st with lastSeen := fun s => if s = id then some now else st.lastSeen s }

/-- getLastSeen (lines 314-317): read the per-id last_seen key. -/
def getLastSeen (st : QueueState) (id : String) : Option Nat :=
  st.lastSeen id

/-- findMissingProperties (lines 323-339): cutoff = now − hours·60·60·1000;
keep every all_ids member whose last_seen is absent or earlier than the
cutoff.  A stored timestamp 0 reads back as the JavaScript falsy number 0,
so the guard (!lastSeen) also treats it as absent. -/
def findMissingProperties (st : QueueState) (now : Nat) (hoursThreshold : Nat) : List String :=
  let cutoffTime := now - hoursThreshold * 60 * 60 * 1000
  st.allIds.filter fun id =>
    match getLastSeen st id with
    | none => true
    | some t => t = 0 || decide (t < cutoffTime)

/-- Loop body of pushToMissingQueue: skip ids already verified inactive,
otherwise LPUSH onto the missing lane and count them. -/
def pushToMissingStep (acc : Nat × QueueState) (id : String) : Nat × QueueState :=
  if id ∈ acc.2.verifiedInactive then acc
  else (acc.1 + 1, { acc.2 with missingQueue := id :: acc.2.missingQueue })

/-- pushToMissingQueue (lines 344-363): iterate over the ids, silently
dropping any id in the verified_inactive set, LPUSHing the rest onto the
missing lane; return how many were queued. -/
def pushToMissingQueue (st : QueueState) (ids : List String) : Nat × QueueState :=
  ids.foldl pushToMissingStep (0, st)

/-- markVerifiedInactive (lines 377-383): SADD into verified_inactive and
SREM from the processed set. -/
def markVerifiedInactive (st : QueueState) (id : String) : QueueState :=
  { st with verifiedInactive := saddL st.verifiedInactive id,
            processedIds := sremL st.processedIds id }

/-- isVerifiedInactive (lines 388-391): SISMEMBER on verified_inactive. -/
def isVerifiedInactive (st : QueueState) (id : String) : Bool :=
  id ∈ st.verifiedInactive

/-- identifyMissingProperties (coordinator.ts lines 167-181): run the
missing sweep and push the result to the missing verification lane
(the early return on an empty sweep result queues nothing, which agrees
with folding over the empty list). -/
def identifyMissingProperties (st : QueueState) (now : Nat) (hoursThreshold : Nat) :
    Nat × QueueState :=
  pushToMissingQueue st (findMissingProperties st now hoursThreshold)

/-! Change-detection fingerprint (redis-queue.ts lines 415-513).

The raw listing object is duck-typed in the TypeScript; the fields the
checksum reads are modelled explicitly.  Absent fields are none.  Numeric
fields are modelled as naturals (the listings carry integer prices,
counts and areas); string lists model the JavaScript arrays. -/

/-- Raw property record as consumed by calculatePropertyChecksum. -/
structure Property where
  rent : Option Nat
  salePrice : Option Nat
  price : Option Nat
  description : Option String
  visitStatus : Option String
  status : Option String
  imageList : Option (List String)
  images : Option (List String)
  amenities : Option (List String)
  installations : Option (List String)
  bedrooms : Option Nat
  bathrooms : Option Nat
  area : Option Nat
  address : Option String
  city : Option String

/-- Property with every field absent. -/
def emptyProp : Property :=
  ⟨none, none, none, none, none, none, none, none, none, none, none, none, none, none, none⟩

/-- JavaScript a || b for a numeric field: undefined and 0 are falsy. -/
def orNum (a : Option Nat) (d : Nat) : Nat :=
  match a with
  | some n => if n = 0 then d else n
  | none => d

/-- JavaScript a || b for a string field: undefined and the empty string
are falsy. -/
def orStr (a : Option String) (d : String) : String :=
  match a with
  | some s => if s = "" then d else s
  | none => d

/-- JavaScript a || b for an array field: only undefined is falsy (an
empty array is truthy). -/
def orList (a : Option (List String)) (d : List String) : List String :=
  match a with
  | some l => l
  | none => d

/-- Effective price: property.rent || property.salePrice || property.price || 0. -/
def priceOf (p : Property) : Nat :=
  orNum p.rent (orNum p.salePrice (orNum p.price 0))

/-- Effective status: property.visitStatus || property.status || 'unknown'. -/
def statusOf (p : Property) : String :=
  orStr p.visitStatus (orStr p.status "unknown")

/-- Lexicographic comparison of character sequences by character code,
the order JavaScript Array.prototype.sort() applies to strings (sort
compares UTF-16 code units; the model compares code points, which agrees
on the basic plane). -/
def charListLe : List Char → List Char → Bool
  | [], _ => true
  | _ :: _, [] => false
  | a :: as, b :: bs =>
    if a.toNat < b.toNat then true
    else if b.toNat < a.toNat then false
    else charListLe as bs

/-- String comparison used by the default sort. -/
abbrev strLeR (a b : String) : Prop := charListLe a.data b.data = true

/-- JavaScript Array.prototype.sort() on strings. -/
def sortStrings (l : List String) : List String :=
  l.insertionSort strLeR

/-- JSON string escaping as performed by JSON.stringify for the escapes
that can occur in listing text: quote, backslash and the common control
characters (other control characters would be hex-escaped; the records
the fingerprint serializes never contain them). -/
def escChar (c : Char) : String :=
  if c = '"' then "\\\""
  else if c = '\\' then "\\\\"
  else if c = '\n' then "\\n"
  else if c = '\r' then "\\r"
  else if c = '\t' then "\\t"
  else String.singleton c

/-- JSON.stringify of a string value. -/
def jsonString (s : String) : String :=
  "\"" ++ String.join (s.data.map escChar) ++ "\""

/-- JSON.stringify of the importantData object built by
calculatePropertyChecksum (lines 417-432), with its insertion key order:
price, description, status, images (joined in order, unsorted), amenities
(sorted then joined), features (installations, sorted then joined),
bedrooms, bathrooms, area, address, city. -/
def importantDataString (p : Property) : String :=
  "\x7b\"price\":" ++ toString (priceOf p) ++
  ",\"description\":" ++ jsonString (orStr p.description "") ++
  ",\"status\":" ++ jsonString (statusOf p) ++
  ",\"images\":" ++ jsonString (String.intercalate "|" (orList p.imageList (orList p.images []))) ++
  ",\"amenities\":" ++ jsonString (String.intercalate "|" (sortStrings (orList p.amenities []))) ++
  ",\"features\":" ++ jsonString (String.intercalate "|" (sortStrings (orList p.installations []))) ++
  ",\"bedrooms\":" ++ toString (orNum p.bedrooms 0) ++
  ",\"bathrooms\":" ++ toString (orNum p.bathrooms 0) ++
  ",\"area\":" ++ toString (orNum p.area 0) ++
  ",\"address\":" ++ jsonString (orStr p.address "") ++
  ",\"city\":" ++ jsonString (orStr p.city "") ++ "\x7d"

/-- Two's-complement wrap of an integer into [−2^31, 2^31), the effect of
the JavaScript ToInt32 conversion performed by the bitwise operators. -/
def toInt32 (n : Int) : Int :=
  (n + 2147483648) % 4294967296 - 2147483648

/-- One step of hashString (lines 505-513): hash = ((hash << 5) - hash)
+ charCode, then hash = hash & hash.  The left shift wraps its result to
32 bits, the subtraction and addition are exact, and the final bitwise
AND wraps the running value back to a signed 32-bit integer. -/
def hashStep (h : Int) (c : Char) : Int :=
  toInt32 (toInt32 (h * 32) - h + c.toNat)

/-- hashString (lines 505-513): fold the rolling step over the characters
starting from 0 and render the signed result in decimal. -/
def hashString (str : String) : String :=
  toString (str.data.foldl hashStep 0)

/-- calculatePropertyChecksum (lines 415-436). -/
def calculatePropertyChecksum (p : Property) : String :=
  hashString (importantDataString p)

/-- storePropertySnapshot (lines 442-457): HSET the per-id snapshot hash
with the checksum, the effective price and status, and updated_at = now. -/
def storePropertySnapshot (st : QueueState) (id : String) (p : Property) (now : Nat) :
    QueueState :=
  { st with snapshots := fun s =>
      if s = id then some ⟨calculatePropertyChecksum p, priceOf p, statusOf p, now⟩
      else st.snapshots s }

/-- getPropertySnapshot (lines 462-476): read the snapshot hash, none when
the hash is empty. -/
def getPropertySnapshot (st : QueueState) (id : String) : Option Snapshot :=
  st.snapshots id

/-- hasPropertyChanged (lines 483-500): a missing snapshot counts as
changed; otherwise compare the stored checksum with the recomputed one. -/
def hasPropertyChanged (st : QueueState) (id : String) (p : Property) : Bool :=
  match getPropertySnapshot st id with
  | none => true
  | some snap => snap.checksum != calculatePropertyChecksum p

/-! Disappearance verifier (src/src/worker-verifier.ts). -/

/-- Outcome of the axios POST to the details endpoint as observed by
verifyProperty: a 2xx response (hasId records whether response.data and
response.data.Id are both truthy), a thrown HTTP error carrying a status
(4xx/5xx), or a thrown network-level error with no response (timeout,
connection reset). -/
inductive FetchOutcome where
  | success (hasId : Bool)
  | httpError (status : Nat)
  | netError
deriving DecidableEq, Repr

/-- verifyProperty (worker-verifier.ts lines 42-71): a 2xx response with a
recognizable record is active; a 2xx response without one is inactive; a
thrown 404 is inactive; every other thrown error is re-thrown. -/
def verifyProperty : FetchOutcome → Except Unit Bool
  | .success hasId => .ok hasId
  | .httpError s => if s = 404 then .ok false else .error ()
  | .netError => .error ()

/-- Call to the Sink's inactive-marking entry point markPropertyInactive
with its reason code. -/
structure SinkInactiveCall where
  id : String
  reason : String
deriving DecidableEq, Repr

/-- processMissingProperty (worker-verifier.ts lines 76-112): on an active
verdict refresh last_seen and return true; on an inactive verdict notify
the Sink (only when an API key is configured) and mark the id verified
inactive, returning true; on a thrown error log and return false with the
state untouched. -/
def processMissingProperty (st : QueueState) (id : String) (outcome : FetchOutcome)
    (apiKey : Bool) (now : Nat) : Bool × QueueState × List SinkInactiveCall :=
  match verifyProperty outcome with
  | .ok true => (true, updateLastSeen st id now, [])
  | .ok false =>
      (true, markVerifiedInactive st id, if apiKey then [⟨id, "not_found"⟩] else [])
  | .error _ => (false, st, [])

/-! Inspection worker (src/unnamed/part_000, class RealtorWorker). -/

/-- Record sent to the Sink by sendToCoreService from the changed branch
of processListing: the portal id, the normalized data produced by the
opaque transformToStandard, the raw property and the fixed active
status. -/
structure SinkEmission (α : Type) where
  portalId : String
  data : α
  rawData : Property
  status : String

/-- processListing (part_000 lines 71-144), success path: skip ids already
processed (without fetching or comparing — the result does not depend on
the fetch, which is passed in as data); a null fetch marks the id failed;
otherwise compare fingerprints and, on a change, emit to the Sink (only
when an API key is configured) and overwrite the snapshot; finally mark
the id processed.  The normalizer is the opaque collaborator
transformToStandard, passed in as a function. -/
def processListing {α : Type} (normalize : Property → α) (st : QueueState) (id : String)
    (fetched : Option Property) (apiKey : Bool) (now : Nat) :
    Bool × QueueState × List (SinkEmission α) :=
  if id ∈ st.processedIds then (true, st, [])
  else
    match fetched with
    | none => (false, markFailed st id (some "Not found"), [])
    | some p =>
        if hasPropertyChanged st id p then
          let emits := if apiKey then [⟨id, normalize p, p, "active"⟩] else []
          (true, markProcessed (storePropertySnapshot st id p now) id, emits)
        else
          (true, markProcessed st id, [])

/-! Adaptive scheduler (src/unnamed/part_003, ScraperDatabase.updateAreaStats). -/

/-- Interval tier selection from updateAreaStats (part_003 lines 203-215):
first strictly-greater match wins, default 24 hours. -/
def scrapeIntervalHours (changeRate : ℚ) : Nat :=
  if changeRate > 20 / 100 then 2
  else if changeRate > 10 / 100 then 4
  else if changeRate > 5 / 100 then 6
  else if changeRate > 2 / 100 then 12
  else 24

/-- Per-area statistics passed into updateAreaStats. -/
structure AreaStats where
  changeRate : ℚ
  totalProperties : Nat
  activeProperties : Nat
  avgChangesPerScrape : ℚ

/-- Row of the geographic_areas table for one area. -/
structure AreaRecord where
  changeRate : ℚ
  scrapeIntervalHours : Nat
  lastScraped : Nat
  nextScrape : Nat
  totalProperties : Nat
  activeProperties : Nat
  avgChangesPerScrape : ℚ

/-- updateAreaStats (part_003 lines 193-241): select the interval tier
from the change rate and upsert the area row with last_scraped = now and
next_scrape = now + interval (the SQL adds the interval in hours; time is
kept in milliseconds here, matching the queue-store clock). -/
def updateAreaStats (db : String → Option AreaRecord) (areaName : String)
    (stats : AreaStats) (now : Nat) : String → Option AreaRecord :=
  let h := scrapeIntervalHours stats.changeRate
  fun s =>
    if s = areaName then
      some ⟨stats.changeRate, h, now, now + h * 60 * 60 * 1000,
            stats.totalProperties, stats.activeProperties, stats.avgChangesPerScrape⟩
    else db s

/-! Helper lemmas about the embedded operations. -/

/-- An element is always a member of the set it was SADDed into. -/
theorem mem_saddL (s : List String) (id : String) : id ∈ saddL s id := by
  unfold saddL
  by_cases h : id ∈ s
  · simp [h]
  · simp [h]

/-- SADD preserves membership of every element. -/
theorem mem_saddL_of_mem {s : List String} {x : String} (id : String) (h : x ∈ s) :
    x ∈ saddL s id := by
  unfold saddL
  by_cases hm : id ∈ s <;> simp [hm, h]

/-- Membership after SREM: still present and distinct from the removed key. -/
theorem mem_sremL (s : List String) (id x : String) :
    x ∈ sremL s id ↔ x ∈ s ∧ x ≠ id := by
  simp [sremL]

/-- The removed key is gone after SREM. -/
theorem not_mem_sremL (s : List String) (id : String) : id ∉ sremL s id := by
  simp [sremL]

/-- Storing a snapshot of a record and immediately re-checking the very
same record reports no change: the stored checksum is recomputed
verbatim. -/
theorem hasChanged_after_store (st : QueueState) (id : String) (p : Property) (now : Nat) :
    hasPropertyChanged (storePropertySnapshot st id p now) id p = false := by
  simp [hasPropertyChanged, getPropertySnapshot, storePropertySnapshot]

/-- Fold of the rolling hash over a character block from a given seed,
used to evaluate the 32-bit hash of a long string in two blocks. -/
def hashFold (h : Int) (l : List Char) : Int :=
  l.foldl hashStep h

/-- Evaluation of hashString on a concatenation via the two blocks. -/
theorem hashString_chunk (A B : String) (n1 n2 : Int)
    (h1 : hashFold 0 A.data = n1) (h2 : hashFold n1 B.data = n2) :
    hashString (A ++ B) = toString n2 := by
  have hd : (A ++ B).data = A.data ++ B.data := String.data_append A B
  show toString ((A ++ B).data.foldl hashStep 0) = toString n2
  rw [hd, List.foldl_append]
  have hA : A.data.foldl hashStep 0 = n1 := h1
  rw [hA]
  exact congrArg toString h2

/-- Totality of the character-code comparison. -/
theorem charListLe_total : ∀ as bs : List Char,
    charListLe as bs = true ∨ charListLe bs as = true := by
  intro as
  induction as with
  | nil => intro bs; left; rfl
  | cons a rest ih =>
    intro bs
    cases bs with
    | nil => right; rfl
    | cons b brest =>
      rcases Nat.lt_trichotomy a.toNat b.toNat with h | h | h
      · left; simp [charListLe, h]
      · have h2 : ¬ a.toNat < b.toNat := by omega
        have h3 : ¬ b.toNat < a.toNat := by omega
        rcases ih brest with h4 | h4
        · left; simp [charListLe, h2, h3, h4]
        · right; simp [charListLe, h2, h3, h4]
      · right; simp [charListLe, h]

/-- Transitivity of the character-code comparison. -/
theorem charListLe_trans : ∀ as bs cs : List Char,
    charListLe as bs = true → charListLe bs cs = true → charListLe as cs = true := by
  intro as
  induction as with
  | nil => intro bs cs _ _; rfl
  | cons a rest ih =>
    intro bs cs h1 h2
    cases bs with
    | nil => simp [charListLe] at h1
    | cons b brest =>
      cases cs with
      | nil => simp [charListLe] at h2
      | cons c crest =>
        rcases Nat.lt_trichotomy a.toNat b.toNat with hab | hab | hab
        · rcases Nat.lt_trichotomy b.toNat c.toNat with hbc | hbc | hbc
          · simp [charListLe, show a.toNat < c.toNat by omega]
          · simp [charListLe, show a.toNat < c.toNat by omega]
          · simp [charListLe, show ¬ b.toNat < c.toNat by omega, hbc] at h2
        · rcases Nat.lt_trichotomy b.toNat c.toNat with hbc | hbc | hbc
          · simp [charListLe, show a.toNat < c.toNat by omega]
          · have e1 : ¬ a.toNat < b.toNat := by omega
            have e2 : ¬ b.toNat < a.toNat := by omega
            have e3 : ¬ b.toNat < c.toNat := by omega
            have e4 : ¬ c.toNat < b.toNat := by omega
            simp [charListLe, e1, e2] at h1
            simp [charListLe, e3, e4] at h2
            simp [charListLe, show ¬ a.toNat < c.toNat by omega,
                  show ¬ c.toNat < a.toNat by omega]
            exact ih brest crest h1 h2
          · simp [charListLe, show ¬ b.toNat < c.toNat by omega, hbc] at h2
        · simp [charListLe, show ¬ a.toNat < b.toNat by omega, hab] at h1

/-- Antisymmetry of the character-code comparison (character codes
determine the characters). -/
theorem charListLe_antisymm : ∀ as bs : List Char,
    charListLe as bs = true → charListLe bs as = true → as = bs := by
  intro as
  induction as with
  | nil =>
    intro bs _ h2
    cases bs with
    | nil => rfl
    | cons b brest => simp [charListLe] at h2
  | cons a rest ih =>
    intro bs h1 h2
    cases bs with
    | nil => simp [charListLe] at h1
    | cons b brest =>
      rcases Nat.lt_trichotomy a.toNat b.toNat with hab | hab | hab
      · simp [charListLe, show ¬ b.toNat < a.toNat by omega, hab] at h2
      · have e1 : ¬ a.toNat < b.toNat := by omega
        have e2 : ¬ b.toNat < a.toNat := by omega
        simp [charListLe, e1, e2] at h1 h2
        have hc : a = b := Char.eq_of_val_eq (UInt32.toNat.inj hab)
        rw [hc, ih brest h1 h2]
      · simp [charListLe, show ¬ a.toNat < b.toNat by omega, hab] at h1

instance : IsTotal String strLeR :=
  ⟨fun a b => charListLe_total a.data b.data⟩

instance : IsTrans String strLeR :=
  ⟨fun a b c h1 h2 => charListLe_trans a.data b.data c.data h1 h2⟩

instance : IsAntisymm String strLeR :=
  ⟨fun a b h1 h2 => String.ext (charListLe_antisymm a.data b.data h1 h2)⟩

/-- Sorting is invariant under permutation of the input, so the sorted
join of the amenity and feature lists is order-independent. -/
theorem sortStrings_perm {l1 l2 : List String} (h : l1.Perm l2) :
    sortStrings l1 = sortStrings l2 :=
  List.eq_of_perm_of_sorted
    ((List.perm_insertionSort strLeR l1).trans (h.trans (List.perm_insertionSort strLeR l2).symm))
    (List.sorted_insertionSort strLeR l1) (List.sorted_insertionSort strLeR l2)

/-- Unfolding of the pushToMissingQueue loop from an arbitrary
accumulator: the verified-inactive set filters the input, the survivors
are counted and LPUSHed (so they appear reversed at the lane head), and
no other component of the state moves. -/
theorem pushToMissing_go (ids : List String) : ∀ (n : Nat) (s : QueueState),
    ids.foldl pushToMissingStep (n, s) =
      (n + (ids.filter fun i => decide (i ∉ s.verifiedInactive)).length,
       { s with missingQueue :=
          (ids.filter fun i => decide (i ∉ s.verifiedInactive)).reverse ++ s.missingQueue }) := by
  induction ids with
  | nil => intro n s; simp
  | cons a rest ih =>
    intro n s
    by_cases h : a ∈ s.verifiedInactive
    · simp only [List.foldl_cons, pushToMissingStep, if_pos h]
      rw [ih n s]
      simp [h]
    · simp only [List.foldl_cons, pushToMissingStep, if_neg h]
      rw [ih (n + 1) { s with missingQueue := a :: s.missingQueue }]
      simp only [List.filter_cons]
      simp [h, Nat.add_comm, Nat.add_assoc, Nat.add_left_comm]

/-- Closed form of pushToMissingQueue. -/
theorem pushToMissingQueue_spec (st : QueueState) (ids : List String) :
    pushToMissingQueue st ids =
      ((ids.filter fun i => decide (i ∉ st.verifiedInactive)).length,
       { st with missingQueue :=
          (ids.filter fun i => decide (i ∉ st.verifiedInactive)).reverse ++ st.missingQueue }) := by
  unfold pushToMissingQueue
  rw [pushToMissing_go ids 0 st]
  simp

/-- A requeue attempt always increments the retry counter by one,
whether or not the id was re-queued. -/
theorem requeue_retries (s : QueueState) (id : String) (m : Nat) :
    (requeueWithRetry s id m).2.retries id = s.retries id + 1 := by
  unfold requeueWithRetry incrementRetry markFailed
  by_cases h : s.retries id + 1 ≤ m <;> simp [h]

/-- Iterated requeueWithRetry: state after k consecutive calls for the
same identifier and the same retry ceiling. -/
def requeueIter (st : QueueState) (id : String) (m : Nat) : Nat → QueueState
  | 0 => st
  | k + 1 => (requeueWithRetry (requeueIter st id m k) id m).2

/-- Starting from a zero counter, k iterated requeues leave the counter
at exactly k. -/
theorem requeueIter_retries (st : QueueState) (id : String) (m : Nat)
    (h0 : st.retries id = 0) : ∀ k, (requeueIter st id m k).retries id = k := by
  intro k
  induction k with
  | zero => exact h0
  | succ k ih =>
    show (requeueWithRetry (requeueIter st id m k) id m).2.retries id = k + 1
    rw [requeue_retries, ih]

/-! Claims. -/

/-- C1 (counterexample): pushing a fresh identifier does add it to the
Discovery Set, but its Last-Seen timestamp stays unset — pushListingId
never touches last_seen, contradicting the claim that every push
refreshes it. -/
theorem C1_counterexample :
    ("a" ∈ (pushListingId initState "a").2.allIds) ∧
    (pushListingId initState "a").2.lastSeen "a" = none :=
  ⟨by decide, rfl⟩

/-- C1 (amended): pushing a fresh identifier returns true, adds it to the
Discovery Set and appends it to the main lane; a second push of the same
identifier returns false and changes nothing, so across the two calls the
Discovery Set and the main lane each grow by exactly one; neither push
touches the Last-Seen timestamp of any identifier. -/
theorem C1_push_idempotent (st : QueueState) (id : String) (h : id ∉ st.allIds) :
    (pushListingId st id).1 = true ∧
    (pushListingId st id).2.allIds = id :: st.allIds ∧
    (pushListingId st id).2.queue = id :: st.queue ∧
    (pushListingId st id).2.lastSeen = st.lastSeen ∧
    (pushListingId (pushListingId st id).2 id).1 = false ∧
    (pushListingId (pushListingId st id).2 id).2 = (pushListingId st id).2 ∧
    (pushListingId (pushListingId st id).2 id).2.allIds.length = st.allIds.length + 1 ∧
    (pushListingId (pushListingId st id).2 id).2.queue.length = st.queue.length + 1 ∧
    (pushListingId (pushListingId st id).2 id).2.lastSeen = st.lastSeen := by
  have h1 : pushListingId st id =
      (true, { st with queue := id :: st.queue, allIds := id :: st.allIds }) := by
    simp [pushListingId, saddL, h]
  have h2 : pushListingId (pushListingId st id).2 id = (false, (pushListingId st id).2) := by
    rw [h1]
    simp [pushListingId]
  rw [h1] at h2 ⊢
  simp_all

/-- C1 (witness): the amended behaviour at a concrete fresh identifier. -/
theorem C1_witness :
    "x" ∉ initState.allIds ∧
    (pushListingId initState "x").1 = true ∧
    (pushListingId (pushListingId initState "x").2 "x").1 = false :=
  ⟨by decide, (C1_push_idempotent initState "x" (by decide)).1,
    (C1_push_idempotent initState "x" (by decide)).2.2.2.2.1⟩

/-- C2: an identifier without a stored snapshot always reads as changed,
and immediately after storeSnapshot the identical record reads as
unchanged. -/
theorem C2_hasChanged_snapshot (st : QueueState) (id : String) (p : Property) (now : Nat)
    (h : st.snapshots id = none) :
    hasPropertyChanged st id p = true ∧
    hasPropertyChanged (storePropertySnapshot st id p now) id p = false :=
  ⟨by simp [hasPropertyChanged, getPropertySnapshot, h],
   hasChanged_after_store st id p now⟩

/-- C2 (witness): the property at the empty state and an empty record. -/
theorem C2_witness :
    initState.snapshots "a" = none ∧
    hasPropertyChanged initState "a" emptyProp = true ∧
    hasPropertyChanged (storePropertySnapshot initState "a" emptyProp 0) "a" emptyProp = false :=
  ⟨rfl, (C2_hasChanged_snapshot initState "a" emptyProp 0 rfl).1,
   (C2_hasChanged_snapshot initState "a" emptyProp 0 rfl).2⟩

/-- Concrete record with an ordered image list and an unsorted amenity
list, for exercising the fingerprint. -/
def propImgBA : Property :=
  { emptyProp with imageList := some ["b", "a"], amenities := some ["y", "x"] }

/-- The same record with the two images transposed. -/
def propImgAB : Property :=
  { propImgBA with imageList := some ["a", "b"] }

/-- Record whose status is the string Aa. -/
def propStatusAa : Property :=
  { emptyProp with visitStatus := some "Aa" }

/-- The same record with status BB: the two serializations have equal
32-bit rolling hashes (31·65+97 = 31·66+66). -/
def propStatusBB : Property :=
  { propStatusAa with visitStatus := some "BB" }

set_option maxRecDepth 100000 in
/-- Checksum of the record with images b,a. -/
theorem checksum_propImgBA : calculatePropertyChecksum propImgBA = "-279943819" := by
  have e : importantDataString propImgBA =
      "\x7b\"price\":0,\"description\":\"\",\"status\":\"unknown\",\"images\":\"b|a\",\"ameniti" ++
      "es\":\"x|y\",\"features\":\"\",\"bedrooms\":0,\"bathrooms\":0,\"area\":0,\"address\":\"\",\"city\":\"\"\x7d" := by
    decide
  show hashString (importantDataString propImgBA) = _
  rw [e, hashString_chunk _ _ 1713583310 (-279943819) (by decide) (by decide)]
  decide

set_option maxRecDepth 100000 in
/-- Checksum of the record with images a,b. -/
theorem checksum_propImgAB : calculatePropertyChecksum propImgAB = "-561065675" := by
  have e : importantDataString propImgAB =
      "\x7b\"price\":0,\"description\":\"\",\"status\":\"unknown\",\"images\":\"a|b\",\"ameniti" ++
      "es\":\"x|y\",\"features\":\"\",\"bedrooms\":0,\"bathrooms\":0,\"area\":0,\"address\":\"\",\"city\":\"\"\x7d" := by
    decide
  show hashString (importantDataString propImgAB) = _
  rw [e, hashString_chunk _ _ 210034958 (-561065675) (by decide) (by decide)]
  decide

set_option maxRecDepth 100000 in
/-- Checksum of the record with status Aa. -/
theorem checksum_propStatusAa : calculatePropertyChecksum propStatusAa = "-1186394587" := by
  have e : importantDataString propStatusAa =
      "\x7b\"price\":0,\"description\":\"\",\"status\":\"Aa\",\"images\":\"\",\"amenities\":\"\",\"" ++
      "features\":\"\",\"bedrooms\":0,\"bathrooms\":0,\"area\":0,\"address\":\"\",\"city\":\"\"\x7d" := by
    decide
  show hashString (importantDataString propStatusAa) = _
  rw [e, hashString_chunk _ _ 740345985 (-1186394587) (by decide) (by decide)]
  decide

set_option maxRecDepth 100000 in
/-- Checksum of the record with status BB: collides with status Aa. -/
theorem checksum_propStatusBB : calculatePropertyChecksum propStatusBB = "-1186394587" := by
  have e : importantDataString propStatusBB =
      "\x7b\"price\":0,\"description\":\"\",\"status\":\"BB\",\"images\":\"\",\"amenities\":\"\",\"" ++
      "features\":\"\",\"bedrooms\":0,\"bathrooms\":0,\"area\":0,\"address\":\"\",\"city\":\"\"\x7d" := by
    decide
  show hashString (importantDataString propStatusBB) = _
  rw [e, hashString_chunk _ _ 740345985 (-1186394587) (by decide) (by decide)]
  decide

/-- C3 (counterexample): permuting the two elements of the image list
flips hasChanged to true (the claim says a pure permutation leaves it
false), while changing the status field from Aa to BB — a single tracked
field — leaves hasChanged false because the 32-bit rolling hashes of the
two serializations collide (the claim says any single-field change makes
it true). -/
theorem C3_counterexample :
    hasPropertyChanged (storePropertySnapshot initState "id1" propImgBA 0) "id1" propImgAB
      = true ∧
    hasPropertyChanged (storePropertySnapshot initState "id2" propStatusAa 0) "id2" propStatusBB
      = false := by
  constructor
  · simp [hasPropertyChanged, getPropertySnapshot, storePropertySnapshot,
          checksum_propImgBA, checksum_propImgAB]
  · simp [hasPropertyChanged, getPropertySnapshot, storePropertySnapshot,
          checksum_propStatusAa, checksum_propStatusBB]

/-- C3 (amended): with a stored snapshot, hasChanged reports exactly the
inequality of the 32-bit checksums of the stored and current records —
so a single tracked-field change is detected precisely when its checksum
changes, and the non-collision-resistant hash can miss one — and
permuting the amenity list or the feature list never changes the
checksum (they are sorted before joining), whereas the image list is
joined in source order, so its order is part of the fingerprint. -/
theorem C3_fingerprint (st : QueueState) (id : String) (p q : Property) (now : Nat)
    (la lf : List String) :
    (hasPropertyChanged (storePropertySnapshot st id p now) id q =
      (calculatePropertyChecksum p != calculatePropertyChecksum q)) ∧
    (la.Perm (orList p.amenities []) →
      calculatePropertyChecksum { p with amenities := some la } =
        calculatePropertyChecksum p) ∧
    (lf.Perm (orList p.installations []) →
      calculatePropertyChecksum { p with installations := some lf } =
        calculatePropertyChecksum p) := by
  refine ⟨?_, ?_, ?_⟩
  · simp [hasPropertyChanged, getPropertySnapshot, storePropertySnapshot]
  · intro hperm
    have hs : sortStrings la = sortStrings (orList p.amenities []) := sortStrings_perm hperm
    have h2 : orList (some la) [] = la := rfl
    simp only [calculatePropertyChecksum, importantDataString, priceOf, statusOf, h2, hs]
  · intro hperm
    have hs : sortStrings lf = sortStrings (orList p.installations []) := sortStrings_perm hperm
    have h2 : orList (some lf) [] = lf := rfl
    simp only [calculatePropertyChecksum, importantDataString, priceOf, statusOf, h2, hs]

/-- C3 (witness): permuting a concrete two-element amenity list and a
concrete two-element feature list leaves the checksum unchanged. -/
theorem C3_witness :
    calculatePropertyChecksum { emptyProp with amenities := some ["y", "x"] } =
      calculatePropertyChecksum { emptyProp with amenities := some ["x", "y"] } ∧
    calculatePropertyChecksum { emptyProp with installations := some ["q", "p"] } =
      calculatePropertyChecksum { emptyProp with installations := some ["p", "q"] } :=
  ⟨(C3_fingerprint initState "a" { emptyProp with amenities := some ["x", "y"] }
      emptyProp 0 ["y", "x"] [] ).2.1 (by decide),
   (C3_fingerprint initState "a" { emptyProp with installations := some ["p", "q"] }
      emptyProp 0 [] ["q", "p"]).2.2 (by decide)⟩

/-- C4: starting from a zero retry counter, every requeue increments the
counter; each of the first maxRetries calls re-appends the identifier to
the main lane and returns true without touching the Failed set; the
(maxRetries+1)-th call returns false, leaves the lane alone and puts the
identifier in the Failed set with a max-retries reason. -/
theorem C4_requeue_ceiling (st : QueueState) (id : String) (m : Nat)
    (h0 : st.retries id = 0) :
    (∀ k, (requeueIter st id m k).retries id = k) ∧
    (∀ k, k < m →
      (requeueWithRetry (requeueIter st id m k) id m).1 = true ∧
      (requeueWithRetry (requeueIter st id m k) id m).2.queue =
        id :: (requeueIter st id m k).queue ∧
      (requeueWithRetry (requeueIter st id m k) id m).2.failedIds =
        (requeueIter st id m k).failedIds) ∧
    ((requeueWithRetry (requeueIter st id m m) id m).1 = false ∧
     id ∈ (requeueWithRetry (requeueIter st id m m) id m).2.failedIds ∧
     (requeueWithRetry (requeueIter st id m m) id m).2.queue = (requeueIter st id m m).queue ∧
     (requeueWithRetry (requeueIter st id m m) id m).2.failedErrors id =
       some ("Max retries (" ++ toString m ++ ") exceeded")) := by
  have hr := requeueIter_retries st id m h0
  refine ⟨hr, ?_, ?_⟩
  · intro k hk
    have hle : (requeueIter st id m k).retries id + 1 ≤ m := by rw [hr k]; omega
    unfold requeueWithRetry incrementRetry
    simp [hle]
  · have hgt : ¬ (requeueIter st id m m).retries id + 1 ≤ m := by rw [hr m]; omega
    unfold requeueWithRetry incrementRetry markFailed
    simp [hgt, mem_saddL]

/-- C4 (witness): a concrete identifier with ceiling 2 — the first two
calls requeue, the third fails it. -/
theorem C4_witness :
    initState.retries "a" = 0 ∧
    (requeueWithRetry (requeueIter initState "a" 2 0) "a" 2).1 = true ∧
    (requeueWithRetry (requeueIter initState "a" 2 1) "a" 2).1 = true ∧
    (requeueWithRetry (requeueIter initState "a" 2 2) "a" 2).1 = false ∧
    "a" ∈ (requeueWithRetry (requeueIter initState "a" 2 2) "a" 2).2.failedIds :=
  ⟨rfl,
   ((C4_requeue_ceiling initState "a" 2 rfl).2.1 0 (by omega)).1,
   ((C4_requeue_ceiling initState "a" 2 rfl).2.1 1 (by omega)).1,
   (C4_requeue_ceiling initState "a" 2 rfl).2.2.1,
   (C4_requeue_ceiling initState "a" 2 rfl).2.2.2.1⟩

/-- C5 (counterexample): a 2xx response whose body carries no Id — an
empty or malformed success response — makes the verifier mark the
identifier Verified-Inactive and notify the Sink's inactive-marking
entry point, although the claim requires every such response to leave
the identifier untouched for a future sweep. -/
theorem C5_counterexample :
    (processMissingProperty initState "a" (.success false) true 0).2.1.verifiedInactive
      = ["a"] ∧
    (processMissingProperty initState "a" (.success false) true 0).2.2
      = [⟨"a", "not_found"⟩] := by
  constructor <;> rfl

/-- C5 (amended): the verifier classifies an identifier Verified-Inactive
exactly when the detail fetch returns an explicit 404 or a 2xx response
without a recognizable record (the code treats a success body lacking an
Id as authoritative not-found); every thrown transient error — timeout,
connection reset, or a non-404 HTTP error such as a 5xx — neither marks
the identifier Verified-Inactive nor notifies the Sink, returning false
with the state untouched so a future sweep sees the identifier again. -/
theorem C5_verifier_classification (st : QueueState) (id : String) (apiKey : Bool) (now : Nat) :
    (∀ s, s ≠ 404 →
      processMissingProperty st id (.httpError s) apiKey now = (false, st, [])) ∧
    (processMissingProperty st id .netError apiKey now = (false, st, [])) ∧
    (processMissingProperty st id (.success true) apiKey now =
      (true, updateLastSeen st id now, [])) ∧
    (processMissingProperty st id (.httpError 404) apiKey now =
      (true, markVerifiedInactive st id, if apiKey then [⟨id, "not_found"⟩] else [])) ∧
    (processMissingProperty st id (.success false) apiKey now =
      (true, markVerifiedInactive st id, if apiKey then [⟨id, "not_found"⟩] else [])) ∧
    id ∈ (markVerifiedInactive st id).verifiedInactive := by
  refine ⟨?_, rfl, rfl, rfl, rfl, mem_saddL st.verifiedInactive id⟩
  intro s hs
  simp [processMissingProperty, verifyProperty, hs]

/-- C5 (witness): a concrete 500 response leaves the state untouched. -/
theorem C5_witness :
    processMissingProperty initState "a" (.httpError 500) true 0 = (false, initState, []) :=
  (C5_verifier_classification initState "a" true 0).1 500 (by omega)

/-- C6: an identifier is selected by the missing sweep exactly when it is
in the Discovery Set and its Last-Seen is absent or strictly earlier than
now minus the threshold (for any realistic clock, i.e. now past the
threshold span), and the coordinator's sweep pushes exactly the eligible
identifiers that are not Verified-Inactive onto the missing lane. -/
theorem C6_missing_sweep (st : QueueState) (now hoursThreshold : Nat) (id : String)
    (hnow : hoursThreshold * 60 * 60 * 1000 < now) :
    (id ∈ findMissingProperties st now hoursThreshold ↔
      id ∈ st.allIds ∧ (st.lastSeen id = none ∨
        ∃ t, st.lastSeen id = some t ∧ t < now - hoursThreshold * 60 * 60 * 1000)) ∧
    (id ∈ (identifyMissingProperties st now hoursThreshold).2.missingQueue ↔
      id ∈ st.missingQueue ∨
        (id ∈ findMissingProperties st now hoursThreshold ∧ id ∉ st.verifiedInactive)) := by
  constructor
  · unfold findMissingProperties getLastSeen
    cases hls : st.lastSeen id with
    | none => simp [List.mem_filter, hls]
    | some t =>
      simp only [List.mem_filter, hls]
      constructor
      · rintro ⟨hin, hp⟩
        refine ⟨hin, Or.inr ⟨t, rfl, ?_⟩⟩
        simp at hp
        rcases hp with h0 | hlt
        · omega
        · exact hlt
      · rintro ⟨hin, h | ⟨t', ht', hlt⟩⟩
        · simp at h
        · refine ⟨hin, ?_⟩
          cases ht'
          simp
          omega
  · unfold identifyMissingProperties
    rw [pushToMissingQueue_spec]
    simp [List.mem_append, List.mem_filter]
    tauto

/-- State for exercising the sweep: three discovered identifiers, one
last seen 25 hours before the probe time, one 1 hour before, one never
seen and already verified inactive. -/
def sweepState : QueueState :=
  { initState with
      allIds := ["old", "fresh", "dead"],
      verifiedInactive := ["dead"],
      lastSeen := fun s =>
        if s = "old" then some 270000000
        else if s = "fresh" then some 356400000
        else none }

/-- C6 (witness): with now = 360000000 ms and a 24-hour threshold, the
identifier last seen 25 hours ago is eligible and queued, the one seen
1 hour ago is not eligible, and the verified-inactive one is dropped. -/
theorem C6_witness :
    "old" ∈ findMissingProperties sweepState 360000000 24 ∧
    "fresh" ∉ findMissingProperties sweepState 360000000 24 ∧
    "old" ∈ (identifyMissingProperties sweepState 360000000 24).2.missingQueue ∧
    "dead" ∉ (identifyMissingProperties sweepState 360000000 24).2.missingQueue := by
  have hnow : 24 * 60 * 60 * 1000 < 360000000 := by omega
  have hOld : "old" ∈ findMissingProperties sweepState 360000000 24 :=
    (C6_missing_sweep sweepState 360000000 24 "old" hnow).1.mpr
      ⟨by decide, Or.inr ⟨270000000, rfl, by omega⟩⟩
  refine ⟨hOld, ?_, ?_, ?_⟩
  · intro hmem
    have h := (C6_missing_sweep sweepState 360000000 24 "fresh" hnow).1.mp hmem
    have hls : sweepState.lastSeen "fresh" = some 356400000 := rfl
    rcases h.2 with hnone | ⟨t, ht, hlt⟩
    · rw [hls] at hnone; cases hnone
    · rw [hls] at ht
      cases ht
      omega
  · exact (C6_missing_sweep sweepState 360000000 24 "old" hnow).2.mpr
      (Or.inr ⟨hOld, by decide⟩)
  · intro hmem
    rcases (C6_missing_sweep sweepState 360000000 24 "dead" hnow).2.mp hmem with h | ⟨_, h2⟩
    · simp [sweepState, initState] at h
    · exact h2 (by decide)

/-- C7: the re-scan interval is selected by strict greater-than tiers in
order (rate > 0.20 gives 2 h, then > 0.10 gives 4 h, then > 0.05 gives
6 h, then > 0.02 gives 12 h, otherwise 24 h), a rate of exactly 0.10
falls through to the 6-hour tier, and the upserted area row sets
next-due to now plus the selected interval. -/
theorem C7_adaptive_tiers (db : String → Option AreaRecord) (areaName : String)
    (stats : AreaStats) (now : Nat) :
    (updateAreaStats db areaName stats now areaName =
      some ⟨stats.changeRate, scrapeIntervalHours stats.changeRate, now,
            now + scrapeIntervalHours stats.changeRate * 60 * 60 * 1000,
            stats.totalProperties, stats.activeProperties, stats.avgChangesPerScrape⟩) ∧
    (stats.changeRate > 20 / 100 → scrapeIntervalHours stats.changeRate = 2) ∧
    (stats.changeRate ≤ 20 / 100 → stats.changeRate > 10 / 100 →
      scrapeIntervalHours stats.changeRate = 4) ∧
    (stats.changeRate ≤ 10 / 100 → stats.changeRate > 5 / 100 →
      scrapeIntervalHours stats.changeRate = 6) ∧
    (stats.changeRate ≤ 5 / 100 → stats.changeRate > 2 / 100 →
      scrapeIntervalHours stats.changeRate = 12) ∧
    (stats.changeRate ≤ 2 / 100 → scrapeIntervalHours stats.changeRate = 24) ∧
    scrapeIntervalHours (25 / 100) = 2 ∧
    scrapeIntervalHours (10 / 100) = 6 ∧
    scrapeIntervalHours (3 / 100) = 12 ∧
    scrapeIntervalHours 0 = 24 := by
  refine ⟨by simp [updateAreaStats], ?_, ?_, ?_, ?_, ?_, ?_, ?_, ?_, ?_⟩
  · intro h1; simp [scrapeIntervalHours, h1]
  · intro h1 h2
    simp [scrapeIntervalHours, h2, show ¬ stats.changeRate > 20 / 100 by linarith]
  · intro h1 h2
    simp [scrapeIntervalHours, h2, show ¬ stats.changeRate > 20 / 100 by linarith,
          show ¬ stats.changeRate > 10 / 100 by linarith]
  · intro h1 h2
    simp [scrapeIntervalHours, h2, show ¬ stats.changeRate > 20 / 100 by linarith,
          show ¬ stats.changeRate > 10 / 100 by linarith,
          show ¬ stats.changeRate > 5 / 100 by linarith]
  · intro h1
    simp [scrapeIntervalHours, show ¬ stats.changeRate > 20 / 100 by linarith,
          show ¬ stats.changeRate > 10 / 100 by linarith,
          show ¬ stats.changeRate > 5 / 100 by linarith,
          show ¬ stats.changeRate > 2 / 100 by linarith]
  · norm_num [scrapeIntervalHours]
  · norm_num [scrapeIntervalHours]
  · norm_num [scrapeIntervalHours]
  · norm_num [scrapeIntervalHours]

/-- C7 (witness): concrete updates — a 0.25-rate area gets a 2-hour
interval with next-due 7 200 000 ms after now, and a 0.10-rate area gets
the 6-hour tier. -/
theorem C7_witness :
    updateAreaStats (fun _ => none) "toronto" ⟨25 / 100, 10, 8, 1⟩ 1000 "toronto" =
      some ⟨25 / 100, 2, 1000, 1000 + 2 * 60 * 60 * 1000, 10, 8, 1⟩ ∧
    scrapeIntervalHours (10 / 100) = 6 ∧
    ((10 : ℚ) / 100 ≤ 10 / 100 ∧ (10 : ℚ) / 100 > 5 / 100) := by
  have h := C7_adaptive_tiers (fun _ => none) "toronto" ⟨25 / 100, 10, 8, 1⟩ 1000
  have h2 : scrapeIntervalHours (25 / 100) = 2 := h.2.2.2.2.2.2.1
  refine ⟨?_, h.2.2.2.2.2.2.2.1, by norm_num, by norm_num⟩
  rw [h.1, h2]

/-- C8: per popped identifier, the worker returns immediately with an
unchanged state when the id is already Processed (independently of any
fetch result); on an unchanged fingerprint it emits nothing and leaves
every snapshot exactly as it was; on a changed fingerprint it emits one
record exactly when send credentials are configured and overwrites the
snapshot; and in both non-skip outcomes the id ends up Processed. -/
theorem C8_worker_effects {α : Type} (normalize : Property → α) (st : QueueState)
    (id : String) (apiKey : Bool) (now : Nat) :
    (∀ fetched, id ∈ st.processedIds →
      processListing normalize st id fetched apiKey now = (true, st, [])) ∧
    (∀ p, id ∉ st.processedIds → hasPropertyChanged st id p = false →
      processListing normalize st id (some p) apiKey now = (true, markProcessed st id, []) ∧
      (markProcessed st id).snapshots = st.snapshots ∧
      id ∈ (markProcessed st id).processedIds) ∧
    (∀ p, id ∉ st.processedIds → hasPropertyChanged st id p = true →
      processListing normalize st id (some p) apiKey now =
        (true, markProcessed (storePropertySnapshot st id p now) id,
         if apiKey then [⟨id, normalize p, p, "active"⟩] else []) ∧
      (markProcessed (storePropertySnapshot st id p now) id).snapshots id =
        some ⟨calculatePropertyChecksum p, priceOf p, statusOf p, now⟩ ∧
      id ∈ (markProcessed (storePropertySnapshot st id p now) id).processedIds) := by
  refine ⟨?_, ?_, ?_⟩
  · intro fetched h
    simp [processListing, h]
  · intro p h hc
    refine ⟨?_, rfl, mem_saddL st.processedIds id⟩
    simp [processListing, h, hc]
  · intro p h hc
    refine ⟨?_, ?_, mem_saddL _ id⟩
    · simp [processListing, h, hc]
    · show (storePropertySnapshot st id p now).snapshots id = _
      simp [storePropertySnapshot]

/-- State for the skip branch: one identifier already processed. -/
def processedState : QueueState :=
  { initState with processedIds := ["a"] }

/-- C8 (witness): the three branches at concrete inputs — the skip branch
ignores the fetch and changes nothing; the unchanged branch (identifier
with a fresh identical snapshot) only marks the id processed; the changed
branch (no snapshot) emits exactly one record and stores the snapshot. -/
theorem C8_witness :
    processListing (fun _ => ()) processedState "a" (some emptyProp) true 5 =
      (true, processedState, []) ∧
    processListing (fun _ => ()) (storePropertySnapshot initState "b" emptyProp 0) "b"
        (some emptyProp) true 5 =
      (true, markProcessed (storePropertySnapshot initState "b" emptyProp 0) "b", []) ∧
    processListing (fun _ => ()) initState "c" (some emptyProp) true 5 =
      (true, markProcessed (storePropertySnapshot initState "c" emptyProp 5) "c",
       [⟨"c", (), emptyProp, "active"⟩]) :=
  ⟨(C8_worker_effects (fun _ => ()) processedState "a" true 5).1 (some emptyProp) (by decide),
   ((C8_worker_effects (fun _ => ()) (storePropertySnapshot initState "b" emptyProp 0) "b"
        true 5).2.1 emptyProp (by decide) (hasChanged_after_store initState "b" emptyProp 0)).1,
   by
    have h := ((C8_worker_effects (fun _ => ()) initState "c" true 5).2.2 emptyProp
      (by decide) rfl).1
    simpa using h⟩

/-- C9: an identifier in the Verified-Inactive set is silently dropped by
pushToMissingQueue — it never enters the missing lane it was absent from,
and removing its occurrences from the input does not change the returned
count of queued identifiers. -/
theorem C9_inactive_never_requeued (st : QueueState) (ids : List String) (id : String)
    (h : id ∈ st.verifiedInactive) :
    (id ∉ st.missingQueue → id ∉ (pushToMissingQueue st ids).2.missingQueue) ∧
    (pushToMissingQueue st ids).1 =
      (pushToMissingQueue st (ids.filter fun i => i ≠ id)).1 := by
  constructor
  · intro hq
    rw [pushToMissingQueue_spec]
    simp [List.mem_append, List.mem_filter, hq]
    intro _
    exact h
  · rw [pushToMissingQueue_spec, pushToMissingQueue_spec]
    simp only [List.filter_filter]
    congr 1
    apply List.filter_congr
    intro a _
    by_cases hv : a ∈ st.verifiedInactive
    · simp [hv]
    · have : a ≠ id := fun he => hv (he ▸ h)
      simp [hv, this]

/-- State with one verified-inactive identifier. -/
def inactiveState : QueueState :=
  { initState with verifiedInactive := ["a"] }

/-- C9 (witness): pushing a batch containing the verified-inactive id
leaves it out of the missing lane and counts only the other id. -/
theorem C9_witness :
    "a" ∉ (pushToMissingQueue inactiveState ["a", "b"]).2.missingQueue ∧
    (pushToMissingQueue inactiveState ["a", "b"]).1 =
      (pushToMissingQueue inactiveState (["a", "b"].filter fun i => i ≠ "a")).1 :=
  ⟨(C9_inactive_never_requeued inactiveState ["a", "b"] "a" (by decide)).1 (by decide),
   (C9_inactive_never_requeued inactiveState ["a", "b"] "a" (by decide)).2⟩

/-- C10 (counterexample): marking an identifier Failed and then
Verified-Inactive leaves it in both terminal sets at once, so the three
classifications are not pairwise disjoint under arbitrary operation
sequences. -/
theorem C10_counterexample :
    "a" ∈ (markVerifiedInactive (markFailed initState "a" none) "a").failedIds ∧
    "a" ∈ (markVerifiedInactive (markFailed initState "a" none) "a").verifiedInactive := by
  decide

/-- C10 (amended): markVerifiedInactive adds the identifier to
Verified-Inactive and removes it from Processed — so that identifier is
never in both sets right after the call and can be re-inspected if it
returns — while every other component of the state, and every other
identifier's Processed membership, is untouched; disjointness from the
Failed set is not maintained. -/
theorem C10_markVerifiedInactive (st : QueueState) (id : String) :
    id ∈ (markVerifiedInactive st id).verifiedInactive ∧
    id ∉ (markVerifiedInactive st id).processedIds ∧
    (markVerifiedInactive st id).failedIds = st.failedIds ∧
    (markVerifiedInactive st id).queue = st.queue ∧
    (markVerifiedInactive st id).allIds = st.allIds ∧
    (markVerifiedInactive st id).missingQueue = st.missingQueue ∧
    (markVerifiedInactive st id).snapshots = st.snapshots ∧
    (markVerifiedInactive st id).lastSeen = st.lastSeen ∧
    (markVerifiedInactive st id).retries = st.retries ∧
    (∀ x, x ≠ id → ((x ∈ (markVerifiedInactive st id).processedIds) ↔ x ∈ st.processedIds)) := by
  refine ⟨mem_saddL _ id, not_mem_sremL _ id, rfl, rfl, rfl, rfl, rfl, rfl, rfl, ?_⟩
  intro x hx
  show x ∈ sremL st.processedIds id ↔ _
  rw [mem_sremL]
  simp [hx]

/-- State with two processed identifiers. -/
def twoProcessedState : QueueState :=
  { initState with processedIds := ["a", "b"] }

/-- C10 (witness): marking one of two processed identifiers inactive
evicts it from Processed and keeps the other one there. -/
theorem C10_witness :
    "a" ∈ (markVerifiedInactive twoProcessedState "a").verifiedInactive ∧
    "a" ∉ (markVerifiedInactive twoProcessedState "a").processedIds ∧
    "b" ∈ (markVerifiedInactive twoProcessedState "a").processedIds :=
  ⟨(C10_markVerifiedInactive twoProcessedState "a").1,
   (C10_markVerifiedInactive twoProcessedState "a").2.1,
   ((C10_markVerifiedInactive twoProcessedState "a").2.2.2.2.2.2.2.2.2 "b"
      (by decide)).mpr (by decide)⟩

end Landomo
